import Mathlib

/-!
Shallow embedding of `src/server/scripts/gait_model_stub.py`, a command-line
stub that fabricates gait-assessment metrics from its arguments and prints a
JSON payload. Python floats are idealised as exact rationals extended with
`nan`, `inf` and `ninf`; string-to-float conversion is modelled by an
executable parser following the grammar accepted by Python's `float()`
(optional surrounding whitespace, optional sign, `inf`/`infinity`/`nan`
case-insensitively, or a decimal literal with optional fraction and
exponent).
-/

/-- A Python float value, idealised: finite values are exact rationals. -/
inductive PyFloat where
  | nan : PyFloat
  | inf : PyFloat
  | ninf : PyFloat
  | fin : ℚ → PyFloat
deriving Repr, DecidableEq

/-- Python truthiness of a float (`bool(x)`): every value except 0.0 is truthy;
`nan`, `inf` and `-inf` are all truthy. -/
def pyTruthy : PyFloat → Bool
  | .nan => true
  | .inf => true
  | .ninf => true
  | .fin q => decide (q ≠ 0)

/-- Python `a < b` on floats: any comparison involving `nan` is false. -/
def pyLt : PyFloat → PyFloat → Bool
  | .nan, _ => false
  | _, .nan => false
  | .ninf, .ninf => false
  | .ninf, _ => true
  | _, .ninf => false
  | .inf, _ => false
  | _, .inf => true
  | .fin a, .fin b => decide (a < b)

/-- Python `a > b` on floats (`b < a`). -/
def pyGt (a b : PyFloat) : Bool := pyLt b a

/-- Python `min(a, b)`: returns `b` when `b < a`, else the first argument. -/
def pyMin (a b : PyFloat) : PyFloat := if pyLt b a then b else a

/-- Python `max(a, b)`: returns `b` when `a < b`, else the first argument. -/
def pyMax (a b : PyFloat) : PyFloat := if pyLt a b then b else a

/-- Multiplication of a Python float by an exact positive-or-negative rational
constant (the stub multiplies by `0.45` and `0.6`). -/
def pyMul : PyFloat → ℚ → PyFloat
  | .nan, _ => .nan
  | .inf, c => if 0 < c then .inf else if c < 0 then .ninf else .nan
  | .ninf, c => if 0 < c then .ninf else if c < 0 then .inf else .nan
  | .fin a, c => .fin (a * c)

/-- Truncation of a rational toward zero, the behaviour of Python `int()` on a
finite float. -/
def ratTrunc (q : ℚ) : ℤ := if 0 ≤ q then ⌊q⌋ else ⌈q⌉

/-- Python `int(x)` on a float: truncation toward zero on finite values;
raises (`none`) on `nan` and the infinities. -/
def pyInt : PyFloat → Option ℤ
  | .nan => none
  | .inf => none
  | .ninf => none
  | .fin q => some (ratTrunc q)

/-- Round a rational to the nearest integer, ties to even (the rounding used
by Python's `round`). -/
def rndHalfEven (q : ℚ) : ℤ :=
  if q - ⌊q⌋ < 1/2 then ⌊q⌋
  else if 1/2 < q - ⌊q⌋ then ⌊q⌋ + 1
  else if ⌊q⌋ % 2 = 0 then ⌊q⌋ else ⌊q⌋ + 1

/-- Round a rational to one decimal place, ties to even: Python's
`round(x, 1)` idealised over exact rationals. -/
def roundTo1 (q : ℚ) : ℚ := (rndHalfEven (q * 10) : ℚ) / 10

/-- Python `round(x, 1)` on a float: `nan` and infinities round to
themselves. -/
def pyRound1 : PyFloat → PyFloat
  | .nan => .nan
  | .inf => .inf
  | .ninf => .ninf
  | .fin q => .fin (roundTo1 q)

/-- Digits to a natural number, most significant first. -/
def digitsToNat (cs : List Char) : ℕ :=
  cs.foldl (fun a c => a * 10 + (c.toNat - 48)) 0

/-- Strip leading and trailing whitespace, as Python `float()` does to its
argument string. -/
def trimWs (cs : List Char) : List Char :=
  ((cs.dropWhile Char.isWhitespace).reverse.dropWhile Char.isWhitespace).reverse

/-- ASCII lower-casing of one character: Python `float()` matches `inf`,
`infinity` and `nan` case-insensitively, and accepts both `e` and `E` as the
exponent marker. -/
def lowerChar (c : Char) : Char :=
  if 'A' ≤ c ∧ c ≤ 'Z' then Char.ofNat (c.toNat + 32) else c

/-- Consume an optional leading sign; returns `true` when negative. -/
def takeSign : List Char → Bool × List Char
  | '+' :: rest => (false, rest)
  | '-' :: rest => (true, rest)
  | cs => (false, cs)

/-- Parse an unsigned decimal literal (digits, optional `.digits`, optional
exponent, already lower-cased) to its exact rational value. -/
def parseDecimal (cs : List Char) : Option ℚ :=
  let ip := cs.takeWhile Char.isDigit
  let rest1 := cs.dropWhile Char.isDigit
  let fp := match rest1 with
    | '.' :: r => r.takeWhile Char.isDigit
    | _ => []
  let rest2 := match rest1 with
    | '.' :: r => r.dropWhile Char.isDigit
    | _ => rest1
  if ip.isEmpty && fp.isEmpty then none
  else
    let mant : ℚ := (digitsToNat (ip ++ fp) : ℚ) / ((10 : ℚ) ^ fp.length)
    match rest2 with
    | [] => some mant
    | 'e' :: r =>
      let se := takeSign r
      let ed := se.2.takeWhile Char.isDigit
      let rest3 := se.2.dropWhile Char.isDigit
      if ed.isEmpty || !rest3.isEmpty then none
      else if se.1 then some (mant / (10 : ℚ) ^ digitsToNat ed)
      else some (mant * (10 : ℚ) ^ digitsToNat ed)
    | _ => none

/-- Python `float(s)` on a string: strip surrounding whitespace, optional
sign, then `inf`, `infinity` or `nan` (case-insensitive) or a decimal
literal. `none` models the `ValueError` raised on anything else. -/
def parsePyFloat (s : String) : Option PyFloat :=
  let cs := (trimWs s.toList).map lowerChar
  let sgn := takeSign cs
  if sgn.2 = "inf".toList || sgn.2 = "infinity".toList then
    some (if sgn.1 then .ninf else .inf)
  else if sgn.2 = "nan".toList then some .nan
  else (parseDecimal sgn.2).map fun q => PyFloat.fin (if sgn.1 then -q else q)

/-- The command-line arguments after `argparse` has matched flags: each field
is the raw string supplied for the flag, or `none` when the flag is absent
(`gait_model_stub.py` lines 7-13). -/
structure Args where
  video : Option String
  duration : Option String
  width : Option String
  height : Option String
  assessment_id : Option String
deriving Repr, DecidableEq

/-- The two fatal conditions: `argparse` rejecting a missing required
`--video`, and a `ValueError`/`OverflowError` from `float()`/`int()`. -/
inductive RunError where
  | missingArgument : RunError
  | invalidArgument : RunError
deriving Repr, DecidableEq

/-- The JSON payload printed by the stub (`gait_model_stub.py` lines 25-39). -/
structure Payload where
  model_version : String
  tug_seconds : PyFloat
  chair_stand_seconds : PyFloat
  balance_side_by_side : Bool
  balance_semi_tandem : Bool
  balance_tandem : Bool
  confidence : ℚ
  notes : String
  video_path : String
  duration_seconds : Option PyFloat
  width : Option ℤ
  height : Option ℤ
  assessment_id : Option String
deriving Repr, DecidableEq

/-- `float(args.x) if args.x else None` (line 15): an absent or empty string
is falsy and yields `None`; otherwise `float()` parses or raises. -/
def parseOptFloatArg : Option String → Except RunError (Option PyFloat)
  | none => .ok none
  | some s =>
    if s = "" then .ok none
    else match parsePyFloat s with
      | none => .error .invalidArgument
      | some v => .ok (some v)

/-- `int(float(args.x)) if args.x else None` (lines 16-17). -/
def parseOptIntArg : Option String → Except RunError (Option ℤ)
  | none => .ok none
  | some s =>
    if s = "" then .ok none
    else match parsePyFloat s with
      | none => .error .invalidArgument
      | some v => match pyInt v with
        | none => .error .invalidArgument
        | some z => .ok (some z)

/-- Lines 19-23: defaults `12.4`/`18.6`, replaced by the clamped linear
scalings when `duration and duration > 0`. -/
def computeScores : Option PyFloat → PyFloat × PyFloat
  | none => (.fin 12.4, .fin 18.6)
  | some d =>
    if pyTruthy d && pyGt d (.fin 0) then
      (pyMax (.fin 8) (pyMin (pyMul d 0.45) (.fin 25)),
       pyMax (.fin 10) (pyMin (pyMul d 0.6) (.fin 35)))
    else (.fin 12.4, .fin 18.6)

/-- Lines 25-39: the payload dictionary built from the parsed inputs. -/
def mkPayload (video : String) (duration : Option PyFloat)
    (width height : Option ℤ) (assessmentId : Option String) : Payload :=
  { model_version := "pose_stub_v0"
    tug_seconds := pyRound1 (computeScores duration).1
    chair_stand_seconds := pyRound1 (computeScores duration).2
    balance_side_by_side := true
    balance_semi_tandem := true
    balance_tandem := false
    confidence := 0.42
    notes := "stub: generated demo scores"
    video_path := video
    duration_seconds := duration
    width := width
    height := height
    assessment_id := assessmentId }

/-- The whole program: `argparse` (with required `--video`), the three
numeric conversions of lines 15-17 in source order, then the payload. An
`Except.error` models a nonzero exit with nothing printed on stdout. -/
def run (args : Args) : Except RunError Payload :=
  match args.video with
  | none => .error .missingArgument
  | some video =>
    match parseOptFloatArg args.duration with
    | .error e => .error e
    | .ok duration =>
      match parseOptIntArg args.width with
      | .error e => .error e
      | .ok width =>
        match parseOptIntArg args.height with
        | .error e => .error e
        | .ok height =>
          .ok (mkPayload video duration width height args.assessment_id)

/-- The spec's `clamp(x, lower, upper)` over exact rationals. -/
def clampQ (x lo hi : ℚ) : ℚ := max lo (min x hi)

/-! ### Helper lemmas -/

theorem pyMin_fin (a b : ℚ) : pyMin (.fin a) (.fin b) = .fin (min a b) := by
  simp only [pyMin, pyLt, decide_eq_true_eq]
  split_ifs with h
  · rw [min_eq_right h.le]
  · rw [min_eq_left (le_of_not_lt h)]

theorem pyMax_fin (a b : ℚ) : pyMax (.fin a) (.fin b) = .fin (max a b) := by
  simp only [pyMax, pyLt, decide_eq_true_eq]
  split_ifs with h
  · rw [max_eq_right h.le]
  · rw [max_eq_left (le_of_not_lt h)]

theorem computeScores_fin_pos (q : ℚ) (hq : 0 < q) :
    computeScores (some (.fin q)) =
      (.fin (clampQ (q * 0.45) 8 25), .fin (clampQ (q * 0.6) 10 35)) := by
  have ht : pyTruthy (.fin q) = true := by
    simp [pyTruthy]; exact ne_of_gt hq
  have hg : pyGt (.fin q) (.fin 0) = true := by
    simp [pyGt, pyLt]; exact hq
  simp [computeScores, ht, hg, pyMul, pyMin_fin, pyMax_fin, clampQ]

theorem computeScores_fin_nonpos (q : ℚ) (hq : q ≤ 0) :
    computeScores (some (.fin q)) = (.fin 12.4, .fin 18.6) := by
  have hg : pyGt (.fin q) (.fin 0) = false := by
    simp [pyGt, pyLt]; exact hq
  simp [computeScores, hg]

theorem computeScores_inf :
    computeScores (some .inf) = (.fin 25, .fin 35) := by
  have h45 : (0:ℚ) < 0.45 := by norm_num
  have h6 : (0:ℚ) < 0.6 := by norm_num
  have h825 : (8:ℚ) < 25 := by norm_num
  have h1035 : (10:ℚ) < 35 := by norm_num
  simp [computeScores, pyTruthy, pyGt, pyLt, pyMul, pyMin, pyMax, h45, h6,
    h825, h1035]

theorem computeScores_nan :
    computeScores (some .nan) = (.fin 12.4, .fin 18.6) := by
  simp [computeScores, pyTruthy, pyGt, pyLt]

theorem run_ok_inv (args : Args) (p : Payload) (h : run args = .ok p) :
    ∃ video d w ht, args.video = some video ∧
      parseOptFloatArg args.duration = .ok d ∧
      parseOptIntArg args.width = .ok w ∧
      parseOptIntArg args.height = .ok ht ∧
      p = mkPayload video d w ht args.assessment_id := by
  unfold run at h
  cases hv : args.video with
  | none => rw [hv] at h; exact absurd h (by simp)
  | some video =>
    rw [hv] at h
    cases hd : parseOptFloatArg args.duration with
    | error e => rw [hd] at h; exact absurd h (by simp)
    | ok d =>
      rw [hd] at h
      cases hw : parseOptIntArg args.width with
      | error e => rw [hw] at h; exact absurd h (by simp)
      | ok w =>
        rw [hw] at h
        cases hh : parseOptIntArg args.height with
        | error e => rw [hh] at h; exact absurd h (by simp)
        | ok ht =>
          rw [hh] at h
          simp only [Except.ok.injEq] at h
          exact ⟨video, d, w, ht, rfl, rfl, rfl, rfl, h.symm⟩

theorem rndHalfEven_ge (z : ℤ) (y : ℚ) (h : (z : ℚ) ≤ y) :
    z ≤ rndHalfEven y := by
  have hf : z ≤ ⌊y⌋ := Int.le_floor.2 h
  unfold rndHalfEven
  split_ifs <;> omega

theorem rndHalfEven_le (z : ℤ) (y : ℚ) (h : y ≤ (z : ℚ)) :
    rndHalfEven y ≤ z := by
  have hf : ⌊y⌋ ≤ z := by
    have h1 : ⌊y⌋ ≤ ⌊(z : ℚ)⌋ := Int.floor_le_floor h
    simpa using h1
  have hsucc : ¬ (y - ⌊y⌋ < 1/2) → ⌊y⌋ + 1 ≤ z := by
    intro h1
    have h2 : (⌊y⌋ : ℚ) < y := by
      have := le_of_not_lt h1
      linarith
    have h3 : (⌊y⌋ : ℚ) < (z : ℚ) := lt_of_lt_of_le h2 h
    have h4 : ⌊y⌋ < z := by exact_mod_cast h3
    omega
  unfold rndHalfEven
  split_ifs with h1 h2 h3
  · exact hf
  · exact hsucc h1
  · exact hf
  · exact hsucc h1

theorem le_roundTo1 (z : ℤ) (x : ℚ) (h : (z : ℚ) ≤ x) :
    (z : ℚ) ≤ roundTo1 x := by
  have h1 : 10 * z ≤ rndHalfEven (x * 10) := by
    apply rndHalfEven_ge
    push_cast
    linarith
  have h2 : ((10 * z : ℤ) : ℚ) ≤ (rndHalfEven (x * 10) : ℚ) := by exact_mod_cast h1
  unfold roundTo1
  rw [le_div_iff₀ (by norm_num : (0:ℚ) < 10)]
  push_cast at h2 ⊢
  linarith

theorem roundTo1_le (z : ℤ) (x : ℚ) (h : x ≤ (z : ℚ)) :
    roundTo1 x ≤ (z : ℚ) := by
  have h1 : rndHalfEven (x * 10) ≤ 10 * z := by
    apply rndHalfEven_le
    push_cast
    linarith
  have h2 : (rndHalfEven (x * 10) : ℚ) ≤ ((10 * z : ℤ) : ℚ) := by exact_mod_cast h1
  unfold roundTo1
  rw [div_le_iff₀ (by norm_num : (0:ℚ) < 10)]
  push_cast at h2 ⊢
  linarith

theorem le_clampQ (x lo hi : ℚ) : lo ≤ clampQ x lo hi := le_max_left _ _

theorem clampQ_le (x lo hi : ℚ) (h : lo ≤ hi) : clampQ x lo hi ≤ hi :=
  max_le h (min_le_right _ _)

theorem roundTo1_default_tug : roundTo1 (12.4 : ℚ) = 12.4 := by
  have h : ((12.4 : ℚ)) * 10 = ((124 : ℤ) : ℚ) := by norm_num
  unfold roundTo1
  rw [h]
  rw [show rndHalfEven ((124 : ℤ) : ℚ) = 124 by
    unfold rndHalfEven
    rw [Int.floor_intCast]
    norm_num]
  norm_num

theorem roundTo1_default_chair : roundTo1 (18.6 : ℚ) = 18.6 := by
  have h : ((18.6 : ℚ)) * 10 = ((186 : ℤ) : ℚ) := by norm_num
  unfold roundTo1
  rw [h]
  rw [show rndHalfEven ((186 : ℤ) : ℚ) = 186 by
    unfold rndHalfEven
    rw [Int.floor_intCast]
    norm_num]
  norm_num

/-! ### Claim theorems -/

/-- Claim C1: for every run that prints a payload whose parsed duration is a
finite value strictly greater than 0, the emitted scores are
`clamp(duration * 0.45, 8.0, 25.0)` and `clamp(duration * 0.6, 10.0, 35.0)`,
each rounded to one decimal place. -/
theorem gaitStub_c1_scores_formula (args : Args) (p : Payload) (q : ℚ)
    (h : run args = .ok p) (hd : p.duration_seconds = some (.fin q))
    (hq : 0 < q) :
    p.tug_seconds = .fin (roundTo1 (clampQ (q * 0.45) 8 25)) ∧
    p.chair_stand_seconds = .fin (roundTo1 (clampQ (q * 0.6) 10 35)) := by
  obtain ⟨video, d, w, ht, hv, hdp, hwp, hhp, hp⟩ := run_ok_inv args p h
  subst hp
  simp only [mkPayload] at hd ⊢
  subst hd
  rw [computeScores_fin_pos q hq]
  exact ⟨rfl, rfl⟩

/-- Witness for C1: duration 20 gives `clamp(9.0, 8, 25)` and
`clamp(12.0, 10, 35)`, rounded. -/
theorem gaitStub_c1_scores_formula_witness :
    (mkPayload "a.mp4" (some (.fin 20)) none none none).tug_seconds
        = .fin (roundTo1 (clampQ ((20:ℚ) * 0.45) 8 25)) ∧
    (mkPayload "a.mp4" (some (.fin 20)) none none none).chair_stand_seconds
        = .fin (roundTo1 (clampQ ((20:ℚ) * 0.6) 10 35)) := by
  have hparse : parsePyFloat "20" = some (.fin 20) := by
    simp [parsePyFloat, trimWs, lowerChar, takeSign, parseDecimal, digitsToNat]
  have hrun : run ⟨some "a.mp4", some "20", none, none, none⟩
      = .ok (mkPayload "a.mp4" (some (.fin 20)) none none none) := by
    simp [run, parseOptFloatArg, parseOptIntArg, hparse]
  exact gaitStub_c1_scores_formula _ _ 20 hrun (by simp [mkPayload]) (by norm_num)

/-- Claim C2: for every run that prints a payload whose parsed duration is
greater than 0 (finite or infinite), the emitted `tug_seconds` lies in
`[8, 25]` and the emitted `chair_stand_seconds` lies in `[10, 35]`, the
one-decimal rounding included. -/
theorem gaitStub_c2_scores_bounded (args : Args) (p : Payload) (v : PyFloat)
    (h : run args = .ok p) (hd : p.duration_seconds = some v)
    (hv : pyGt v (.fin 0) = true) :
    ∃ t c : ℚ, p.tug_seconds = .fin t ∧ p.chair_stand_seconds = .fin c ∧
      8 ≤ t ∧ t ≤ 25 ∧ 10 ≤ c ∧ c ≤ 35 := by
  obtain ⟨video, d, w, ht, hvd, hdp, hwp, hhp, hp⟩ := run_ok_inv args p h
  subst hp
  simp only [mkPayload] at hd ⊢
  subst hd
  cases v with
  | nan => simp [pyGt, pyLt] at hv
  | ninf => simp [pyGt, pyLt] at hv
  | inf =>
    rw [computeScores_inf]
    refine ⟨roundTo1 25, roundTo1 35, rfl, rfl, ?_, ?_, ?_, ?_⟩
    · exact_mod_cast le_roundTo1 8 (25:ℚ) (by push_cast; norm_num)
    · exact_mod_cast roundTo1_le 25 (25:ℚ) (by push_cast; norm_num)
    · exact_mod_cast le_roundTo1 10 (35:ℚ) (by push_cast; norm_num)
    · exact_mod_cast roundTo1_le 35 (35:ℚ) (by push_cast; norm_num)
  | fin q =>
    have hq : 0 < q := by simpa [pyGt, pyLt] using hv
    rw [computeScores_fin_pos q hq]
    refine ⟨roundTo1 (clampQ (q * 0.45) 8 25), roundTo1 (clampQ (q * 0.6) 10 35),
      rfl, rfl, ?_, ?_, ?_, ?_⟩
    · exact_mod_cast le_roundTo1 8 _ (by push_cast; exact le_clampQ _ _ _)
    · exact_mod_cast roundTo1_le 25 _
        (by push_cast; exact clampQ_le _ _ _ (by norm_num))
    · exact_mod_cast le_roundTo1 10 _ (by push_cast; exact le_clampQ _ _ _)
    · exact_mod_cast roundTo1_le 35 _
        (by push_cast; exact clampQ_le _ _ _ (by norm_num))

/-- Witness for C2: duration 100 gives clamped scores 25.0 and 35.0, inside
the intervals. -/
theorem gaitStub_c2_scores_bounded_witness :
    ∃ t c : ℚ,
      (mkPayload "a.mp4" (some (.fin 100)) none none none).tug_seconds = .fin t ∧
      (mkPayload "a.mp4" (some (.fin 100)) none none none).chair_stand_seconds = .fin c ∧
      8 ≤ t ∧ t ≤ 25 ∧ 10 ≤ c ∧ c ≤ 35 := by
  have hparse : parsePyFloat "100" = some (.fin 100) := by
    simp [parsePyFloat, trimWs, lowerChar, takeSign, parseDecimal, digitsToNat]
  have hrun : run ⟨some "a.mp4", some "100", none, none, none⟩
      = .ok (mkPayload "a.mp4" (some (.fin 100)) none none none) := by
    simp [run, parseOptFloatArg, parseOptIntArg, hparse]
  exact gaitStub_c2_scores_bounded _ _ (.fin 100) hrun (by simp [mkPayload])
    (by simp [pyGt, pyLt])

/-- Claim C3: a duration that is absent (or empty, hence parsed to `None`),
equal to 0, or negative yields exactly the default pair
`(12.4, 18.6)`. -/
theorem gaitStub_c3_default_scores (args : Args) (p : Payload)
    (h : run args = .ok p)
    (hd : p.duration_seconds = none ∨ p.duration_seconds = some (.fin 0) ∨
      ∃ q : ℚ, q < 0 ∧ p.duration_seconds = some (.fin q)) :
    p.tug_seconds = .fin 12.4 ∧ p.chair_stand_seconds = .fin 18.6 := by
  obtain ⟨video, d, w, ht, hv, hdp, hwp, hhp, hp⟩ := run_ok_inv args p h
  subst hp
  simp only [mkPayload] at hd ⊢
  have hdef : computeScores d = (.fin 12.4, .fin 18.6) := by
    rcases hd with h0 | h0 | ⟨q, hq, h0⟩
    · rw [h0]; rfl
    · rw [h0]; exact computeScores_fin_nonpos 0 le_rfl
    · rw [h0]; exact computeScores_fin_nonpos q hq.le
  rw [hdef]
  constructor
  · show pyRound1 (.fin 12.4) = .fin 12.4
    simp [pyRound1, roundTo1_default_tug]
  · show pyRound1 (.fin 18.6) = .fin 18.6
    simp [pyRound1, roundTo1_default_chair]

/-- Witness for C3: no `--duration` flag at all gives the default pair. -/
theorem gaitStub_c3_default_scores_witness :
    (mkPayload "a.mp4" none none none none).tug_seconds = .fin 12.4 ∧
    (mkPayload "a.mp4" none none none none).chair_stand_seconds = .fin 18.6 := by
  have hrun : run ⟨some "a.mp4", none, none, none, none⟩
      = .ok (mkPayload "a.mp4" none none none none) := by
    simp [run, parseOptFloatArg, parseOptIntArg]
  exact gaitStub_c3_default_scores _ _ hrun (Or.inl (by simp [mkPayload]))

/-- Claim C6: without `--video` the run fails with a nonzero exit
(`argparse` missing-argument error) and prints no JSON. -/
theorem gaitStub_c6_video_required (d w h a : Option String) :
    run ⟨none, d, w, h, a⟩ = .error .missingArgument := rfl

/-- Claim C7: every printed payload carries the fixed balance booleans
`true/true/false` and confidence `0.42`, whatever the arguments were. -/
theorem gaitStub_c7_fixed_constants (args : Args) (p : Payload)
    (h : run args = .ok p) :
    p.balance_side_by_side = true ∧ p.balance_semi_tandem = true ∧
    p.balance_tandem = false ∧ p.confidence = 0.42 := by
  obtain ⟨video, d, w, ht, hv, hdp, hwp, hhp, hp⟩ := run_ok_inv args p h
  subst hp
  simp [mkPayload]

/-- Witness for C7 at a concrete successful invocation. -/
theorem gaitStub_c7_fixed_constants_witness :
    (mkPayload "b.mp4" none none none none).balance_side_by_side = true ∧
    (mkPayload "b.mp4" none none none none).balance_semi_tandem = true ∧
    (mkPayload "b.mp4" none none none none).balance_tandem = false ∧
    (mkPayload "b.mp4" none none none none).confidence = 0.42 := by
  have hrun : run ⟨some "b.mp4", none, none, none, none⟩
      = .ok (mkPayload "b.mp4" none none none none) := by
    simp [run, parseOptFloatArg, parseOptIntArg]
  exact gaitStub_c7_fixed_constants _ _ hrun

/-- Claim C8: the embedded program is a pure function of its argument
record: equal inputs give equal outputs. -/
theorem gaitStub_c8_deterministic (a₁ a₂ : Args) (h : a₁ = a₂) :
    run a₁ = run a₂ := by rw [h]

/-- Witness for C8 at a concrete input. -/
theorem gaitStub_c8_deterministic_witness :
    run ⟨some "a.mp4", some "20", none, none, none⟩
      = run ⟨some "a.mp4", some "20", none, none, none⟩ :=
  gaitStub_c8_deterministic _ _ rfl

/-- Counterexample to C4 as stated: `--duration ""` supplies a string that is
not parseable as a number, yet the process succeeds and prints a payload,
because line 15 tests the raw string's truthiness before ever calling
`float()`. -/
theorem gaitStub_c4_counterexample :
    parsePyFloat "" = none ∧
    run ⟨some "a.mp4", some "", none, none, none⟩
      = .ok (mkPayload "a.mp4" none none none none) := by
  constructor
  · decide
  · simp [run, parseOptFloatArg, parseOptIntArg]

/-- Claim C4 (amended): if `duration`, `width` or `height` is supplied as a
non-empty string that is not parseable as a number, the process terminates
with a nonzero exit status before writing any output. -/
theorem gaitStub_c4_invalid_numeric (args : Args) (s : String)
    (hsup : args.duration = some s ∨ args.width = some s ∨ args.height = some s)
    (hne : s ≠ "") (hbad : parsePyFloat s = none) :
    ∃ e, run args = .error e := by
  cases hv : args.video with
  | none => exact ⟨.missingArgument, by simp [run, hv]⟩
  | some video =>
    rcases hsup with hd | hw | hh
    · exact ⟨.invalidArgument,
        by simp [run, hv, hd, parseOptFloatArg, hne, hbad]⟩
    · cases hdur : parseOptFloatArg args.duration with
      | error e => exact ⟨e, by simp [run, hv, hdur]⟩
      | ok dv => exact ⟨.invalidArgument,
          by simp [run, hv, hdur, hw, parseOptIntArg, hne, hbad]⟩
    · cases hdur : parseOptFloatArg args.duration with
      | error e => exact ⟨e, by simp [run, hv, hdur]⟩
      | ok dv =>
        cases hwid : parseOptIntArg args.width with
        | error e => exact ⟨e, by simp [run, hv, hdur, hwid]⟩
        | ok wv =>
          refine ⟨.invalidArgument, ?_⟩
          simp only [run, hv, hdur, hwid, hh]
          simp [parseOptIntArg, hne, hbad]

/-- Witness for the amended C4: `--duration abc` exits nonzero. -/
theorem gaitStub_c4_invalid_numeric_witness :
    ∃ e, run ⟨some "a.mp4", some "abc", none, none, none⟩ = .error e :=
  gaitStub_c4_invalid_numeric _ "abc" (Or.inl rfl) (by decide) (by decide)

/-- Claim C5: every supplied field is echoed into the printed payload:
`video` and `assessment_id` verbatim, `duration` as its parsed float, and
`width`/`height` as their parsed floats truncated toward zero. -/
theorem gaitStub_c5_roundtrip (args : Args) (p : Payload)
    (h : run args = .ok p) :
    (∀ v, args.video = some v → p.video_path = v) ∧
    (∀ a, args.assessment_id = some a → p.assessment_id = some a) ∧
    (∀ s, args.duration = some s → p.duration_seconds = parsePyFloat s) ∧
    (∀ s q, args.width = some s → parsePyFloat s = some (.fin q) →
      p.width = some (ratTrunc q)) ∧
    (∀ s q, args.height = some s → parsePyFloat s = some (.fin q) →
      p.height = some (ratTrunc q)) := by
  obtain ⟨video, d, w, ht, hv, hdp, hwp, hhp, hp⟩ := run_ok_inv args p h
  subst hp
  refine ⟨?_, ?_, ?_, ?_, ?_⟩
  · intro v hv2
    rw [hv] at hv2
    simp only [Option.some.injEq] at hv2
    subst hv2
    simp [mkPayload]
  · intro a ha
    simp [mkPayload, ha]
  · intro s hs
    rw [hs] at hdp
    by_cases hemp : s = ""
    · subst hemp
      have hdp2 : (Except.ok (none : Option PyFloat) :
          Except RunError (Option PyFloat)) = Except.ok d := hdp
      simp only [Except.ok.injEq] at hdp2
      have h0 : parsePyFloat "" = none := by decide
      simp [mkPayload, ← hdp2, h0]
    · simp only [parseOptFloatArg, if_neg hemp] at hdp
      cases hps : parsePyFloat s with
      | none => rw [hps] at hdp; simp at hdp
      | some v0 =>
        rw [hps] at hdp
        simp only [Except.ok.injEq] at hdp
        simp [mkPayload, ← hdp]
  · intro s q hs hq
    rw [hs] at hwp
    have hemp : s ≠ "" := by
      intro he
      rw [he] at hq
      have h0 : parsePyFloat "" = none := by decide
      rw [h0] at hq
      exact Option.noConfusion hq
    simp only [parseOptIntArg, if_neg hemp, hq, pyInt, Except.ok.injEq] at hwp
    simp [mkPayload, ← hwp]
  · intro s q hs hq
    rw [hs] at hhp
    have hemp : s ≠ "" := by
      intro he
      rw [he] at hq
      have h0 : parsePyFloat "" = none := by decide
      rw [h0] at hq
      exact Option.noConfusion hq
    simp only [parseOptIntArg, if_neg hemp, hq, pyInt, Except.ok.injEq] at hhp
    simp [mkPayload, ← hhp]

/-- Witness for C5: scenario D, `--width 640.7 --height 480.2` truncates to
640 and 480, with the other fields echoed. -/
theorem gaitStub_c5_roundtrip_witness :
    (mkPayload "a.mp4" (some (.fin (5/2))) (some 640) (some 480)
        (some "id7")).video_path = "a.mp4" ∧
    (mkPayload "a.mp4" (some (.fin (5/2))) (some 640) (some 480)
        (some "id7")).assessment_id = some "id7" ∧
    (mkPayload "a.mp4" (some (.fin (5/2))) (some 640) (some 480)
        (some "id7")).duration_seconds = parsePyFloat "2.5" ∧
    (mkPayload "a.mp4" (some (.fin (5/2))) (some 640) (some 480)
        (some "id7")).width = some (ratTrunc (6407/10)) ∧
    (mkPayload "a.mp4" (some (.fin (5/2))) (some 640) (some 480)
        (some "id7")).height = some (ratTrunc (4802/10)) := by
  have hp1 : parsePyFloat "2.5" = some (.fin (5/2)) := by
    simp [parsePyFloat, trimWs, lowerChar, takeSign, parseDecimal,
      digitsToNat]
    norm_num
  have hp2 : parsePyFloat "640.7" = some (.fin (6407/10)) := by
    simp [parsePyFloat, trimWs, lowerChar, takeSign, parseDecimal,
      digitsToNat]
  have hp3 : parsePyFloat "480.2" = some (.fin (4802/10)) := by
    simp [parsePyFloat, trimWs, lowerChar, takeSign, parseDecimal,
      digitsToNat]
  have ht2 : ratTrunc (6407/10) = 640 := by norm_num [ratTrunc]
  have ht3 : ratTrunc (4802/10) = 480 := by norm_num [ratTrunc]
  have hrun : run ⟨some "a.mp4", some "2.5", some "640.7", some "480.2",
      some "id7"⟩ = .ok (mkPayload "a.mp4" (some (.fin (5/2))) (some 640)
        (some 480) (some "id7")) := by
    simp [run, parseOptFloatArg, parseOptIntArg, hp1, hp2, hp3, pyInt, ht2, ht3]
  obtain ⟨h1, h2, h3, h4, h5⟩ := gaitStub_c5_roundtrip _ _ hrun
  exact ⟨h1 _ rfl, h2 _ rfl, h3 _ rfl, h4 "640.7" (6407/10) rfl hp2,
    h5 "480.2" (4802/10) rfl hp3⟩

/-- Claim C9 (implicit): supplying the empty string for `duration`, `width`
or `height` does not fail; the run behaves exactly as if the flag were
absent, because line 15-17 test the raw string's truthiness before
parsing. -/
theorem gaitStub_c9_empty_string (v d w h a : Option String) :
    run ⟨v, some "", w, h, a⟩ = run ⟨v, none, w, h, a⟩ ∧
    run ⟨v, d, some "", h, a⟩ = run ⟨v, d, none, h, a⟩ ∧
    run ⟨v, d, w, some "", a⟩ = run ⟨v, d, w, none, a⟩ := by
  refine ⟨?_, ?_, ?_⟩ <;> simp [run, parseOptFloatArg, parseOptIntArg]

/-- Claim C10 (implicit): a duration string parsing to NaN does not make the
run fail, and the default scores 12.4/18.6 are emitted even though a
duration was supplied, because `nan > 0` is false. -/
theorem gaitStub_c10_nan_duration (v : String) (a : Option String)
    (s : String) (h : parsePyFloat s = some .nan) :
    run ⟨some v, some s, none, none, a⟩
      = .ok (mkPayload v (some .nan) none none a) ∧
    (mkPayload v (some .nan) none none a).tug_seconds = .fin 12.4 ∧
    (mkPayload v (some .nan) none none a).chair_stand_seconds = .fin 18.6 := by
  have hne : s ≠ "" := by
    intro he
    rw [he] at h
    exact absurd h (by decide)
  refine ⟨?_, ?_, ?_⟩
  · simp [run, parseOptFloatArg, parseOptIntArg, hne, h]
  · simp [mkPayload, computeScores_nan, pyRound1, roundTo1_default_tug]
  · simp [mkPayload, computeScores_nan, pyRound1, roundTo1_default_chair]

/-- Witness for C10: `--duration nan` succeeds with the default scores. -/
theorem gaitStub_c10_nan_duration_witness :
    run ⟨some "a.mp4", some "nan", none, none, none⟩
      = .ok (mkPayload "a.mp4" (some .nan) none none none) ∧
    (mkPayload "a.mp4" (some .nan) none none none).tug_seconds = .fin 12.4 ∧
    (mkPayload "a.mp4" (some .nan) none none none).chair_stand_seconds
      = .fin 18.6 :=
  gaitStub_c10_nan_duration "a.mp4" none "nan"
    (by simp [parsePyFloat, trimWs, lowerChar, takeSign])
